import Mathlib

/-!
Verification of the accessibility contrast-audit engine of the
watershed-campground repository: the color parser, WCAG luminance and
contrast-ratio computation, large-text classification and pass/fail
decision (src/scripts/contrast-checker.py), the duplicate ratio function
(src/check-dialog-contrast.py), and the audit orchestration
(src/accessibility-audit.py).

Python strings are modelled as lists of characters (`PyStr`); the string
operations used by the source (replace, split, strip, substring test) are
given structurally recursive models so that concrete inputs evaluate by
kernel reduction.  Python exceptions are modelled with `Except String`,
where the error string names the Python exception kind.  Floating-point
arithmetic of the luminance pipeline is modelled over the reals (with the
exact rational constants of the source); float parsing is modelled over
the rationals.
-/

/-- Python strings, modelled as lists of characters. -/
abbrev PyStr := List Char

/-- Boolean test that `pat` is a prefix of `s` (character-wise equality). -/
def leadsWith : PyStr → PyStr → Bool
  | [], _ => true
  | _ :: _, [] => false
  | p :: ps, c :: cs => p == c && leadsWith ps cs

/-- Boolean model of the Python substring test `pat in s`. -/
def containsSub (pat : PyStr) : PyStr → Bool
  | [] => pat.isEmpty
  | c :: rest => leadsWith pat (c :: rest) || containsSub pat rest

/-- Fuel-driven worker for `pyReplace`; the fuel is the length of the
remaining string, so the recursion is structural and kernel-reducible. -/
def pyReplaceAux (pat rep : PyStr) : Nat → PyStr → PyStr
  | _, [] => []
  | 0, s => s
  | fuel + 1, c :: rest =>
    if leadsWith pat (c :: rest) then
      rep ++ pyReplaceAux pat rep fuel ((c :: rest).drop pat.length)
    else
      c :: pyReplaceAux pat rep fuel rest

/-- Model of Python `s.replace(pat, rep)` for a nonempty pattern:
replace every non-overlapping occurrence, left to right. -/
def pyReplace (s pat rep : PyStr) : PyStr :=
  pyReplaceAux pat rep s.length s

/-- Fuel-driven worker for `pySplitOn`; `cur` is the current chunk,
reversed. -/
def pySplitAux (sep : PyStr) : Nat → PyStr → PyStr → List PyStr
  | _, cur, [] => [cur.reverse]
  | 0, cur, s => [cur.reverse ++ s]
  | fuel + 1, cur, c :: rest =>
    if leadsWith sep (c :: rest) then
      cur.reverse :: pySplitAux sep fuel [] ((c :: rest).drop sep.length)
    else
      pySplitAux sep fuel (c :: cur) rest

/-- Model of Python `s.split(sep)` for a nonempty separator. -/
def pySplitOn (sep s : PyStr) : List PyStr :=
  pySplitAux sep s.length [] s

/-- Model of Python `s.strip()`: remove leading and trailing whitespace. -/
def pyStrip (s : PyStr) : PyStr :=
  ((s.dropWhile Char.isWhitespace).reverse.dropWhile Char.isWhitespace).reverse

/-- Numeric value of a list of decimal digit characters. -/
def digitsToNat (l : PyStr) : Nat :=
  l.foldl (fun a c => 10 * a + (c.toNat - 48)) 0

/-- Model of Python `s.isdigit()`: nonempty and all characters are
decimal digits (restricted to ASCII digits). -/
def pyIsDigit (s : PyStr) : Bool :=
  !s.isEmpty && s.all Char.isDigit

/-- Model of the Python builtin `int(s)` on strings: strip whitespace,
optional sign, then a nonempty run of decimal digits; `none` models a
raised `ValueError`.  (Underscore separators and non-ASCII digits are not
modelled.) -/
def pythonInt (s : PyStr) : Option Int :=
  match pyStrip s with
  | [] => none
  | '+' :: rest =>
    if !rest.isEmpty && rest.all Char.isDigit then some (digitsToNat rest) else none
  | '-' :: rest =>
    if !rest.isEmpty && rest.all Char.isDigit then some (-(digitsToNat rest : Int)) else none
  | c :: rest =>
    if (c :: rest).all Char.isDigit then some (digitsToNat (c :: rest)) else none

/-- Mantissa of a Python float literal: `digits`, `digits.digits`,
`digits.`, or `.digits`, with at least one digit in total. -/
def pyFloatMantissa (mant : PyStr) : Option ℚ :=
  let ip := mant.takeWhile Char.isDigit
  match mant.dropWhile Char.isDigit with
  | [] => if ip.isEmpty then none else some (digitsToNat ip : ℚ)
  | '.' :: fr =>
    if fr.all Char.isDigit && (!ip.isEmpty || !fr.isEmpty) then
      some ((digitsToNat ip : ℚ) + (digitsToNat fr : ℚ) / (10 : ℚ) ^ fr.length)
    else none
  | _ => none

/-- Exponent of a Python float literal: optional sign then a nonempty
digit run. -/
def pyFloatExponent (e : PyStr) : Option Int :=
  match e with
  | '+' :: rest =>
    if !rest.isEmpty && rest.all Char.isDigit then some (digitsToNat rest) else none
  | '-' :: rest =>
    if !rest.isEmpty && rest.all Char.isDigit then some (-(digitsToNat rest : Int)) else none
  | rest =>
    if !rest.isEmpty && rest.all Char.isDigit then some (digitsToNat rest) else none

/-- Model of the Python builtin `float(s)` on finite decimal literals:
strip whitespace, optional sign, mantissa, optional `e`/`E` exponent;
`none` models a raised `ValueError`.  (`inf`, `nan` and underscore
separators are not modelled.) -/
def pythonFloat (s : PyStr) : Option ℚ :=
  let t := pyStrip s
  let signed : ℚ × PyStr :=
    match t with
    | '+' :: rest => (1, rest)
    | '-' :: rest => (-1, rest)
    | rest => (1, rest)
  let mant := signed.2.takeWhile (fun c => !(c == 'e' || c == 'E'))
  let rest := signed.2.dropWhile (fun c => !(c == 'e' || c == 'E'))
  match pyFloatMantissa mant with
  | none => none
  | some m =>
    match rest with
    | [] => some (signed.1 * m)
    | _ :: expPart =>
      match pyFloatExponent expPart with
      | none => none
      | some ex => some (signed.1 * m * (10 : ℚ) ^ ex)

/-- Result of `parse_rgb`: `none` is the transparent marker, `some l` is
the tuple of parsed channel integers (of length 3, or shorter when the
`rgb` branch receives fewer than three comma-separated parts, exactly as
the slice `parts[:3]` allows in the source). -/
abbrev PyColor := Option (List Int)

/-- Model of `tuple(int(parts[i].strip()) for i in range(3))` (the `rgba`
branch of `parse_rgb`): evaluates the three indices in order, raising
`ValueError` on a malformed integer and `IndexError` past the end. -/
def pyIntsN : Nat → List PyStr → Except String (List Int)
  | 0, _ => .ok []
  | _ + 1, [] => .error "IndexError"
  | n + 1, p :: rest =>
    match pythonInt (pyStrip p) with
    | none => .error "ValueError"
    | some v =>
      match pyIntsN n rest with
      | .ok vs => .ok (v :: vs)
      | .error e => .error e

/-- Model of `tuple(int(p.strip()) for p in parts)` (applied to the slice
`parts[:3]` in the `rgb` branch of `parse_rgb`): no IndexError is
possible, but a malformed integer raises `ValueError`. -/
def pyIntsList : List PyStr → Except String (List Int)
  | [] => .ok []
  | p :: rest =>
    match pythonInt (pyStrip p) with
    | none => .error "ValueError"
    | some v =>
      match pyIntsList rest with
      | .ok vs => .ok (v :: vs)
      | .error e => .error e

/-- The `rgba` branch of `parse_rgb`: strip the `rgba(` and `)` markers,
split on commas, and if there are at least four parts whose fourth parses
to the float zero return the transparent marker, otherwise parse the
first three parts as integers. -/
def parseRgbRgbaBranch (s : PyStr) : Except String PyColor :=
  let parts := pySplitOn [','] (pyReplace (pyReplace s ("rgba(").toList []) [')'] [])
  match parts.drop 3 with
  | p3 :: _ =>
    match pythonFloat (pyStrip p3) with
    | none => .error "ValueError"
    | some a =>
      if a = 0 then .ok none
      else (pyIntsN 3 parts).map some
  | [] => (pyIntsN 3 parts).map some

/-- The `rgb` branch of `parse_rgb`: strip the `rgb(` and `)` markers,
split on commas, and parse the first (up to) three parts as integers. -/
def parseRgbRgbBranch (s : PyStr) : Except String PyColor :=
  let parts := pySplitOn [','] (pyReplace (pyReplace s ("rgb(").toList []) [')'] [])
  (pyIntsList (parts.take 3)).map some

/-- Model of `parse_rgb` from src/scripts/contrast-checker.py: empty
input or the literal fully-transparent rgba string yield the transparent
marker; otherwise the `rgba` branch, the `rgb` branch, or the transparent
marker, with Python exceptions modelled as `.error`. -/
def parse_rgb (s : PyStr) : Except String PyColor :=
  if s = [] ∨ s = ("rgba(0, 0, 0, 0)").toList then .ok none
  else if containsSub ("rgba").toList s then parseRgbRgbaBranch s
  else if containsSub ("rgb").toList s then parseRgbRgbBranch s
  else .ok none

/-- Model of the ancestor-walk script evaluated by
`check_element_contrast` when the direct background is transparent: given
the computed `backgroundColor` strings of the ancestors (nearest first),
return the first that is truthy and not the fully-transparent rgba
literal, or the white default when the root is reached. -/
def walkParents : List PyStr → PyStr
  | [] => ("rgb(255, 255, 255)").toList
  | bg :: rest =>
    if bg ≠ [] ∧ bg ≠ ("rgba(0, 0, 0, 0)").toList then bg else walkParents rest

/-- Model of the background resolution performed by
`check_element_contrast`: parse the element's own computed background;
when that yields the transparent marker, walk the ancestors and parse the
first non-transparent ancestor background (or the white default). -/
def resolveBg (bgStr : PyStr) (ancestors : List PyStr) : Except String PyColor :=
  match parse_rgb bgStr with
  | .error e => .error e
  | .ok (some t) => .ok (some t)
  | .ok none => parse_rgb (walkParents ancestors)

namespace ContrastChecker

/-- Model of the piecewise sRGB-to-linear transform of the inner
`get_luminance` helper in src/scripts/contrast-checker.py. -/
noncomputable def srgb_lin (c : ℝ) : ℝ :=
  if c ≤ 0.03928 then c / 12.92 else ((c + 0.055) / 1.055) ^ (2.4 : ℝ)

/-- Model of the inner `get_luminance` of `get_contrast_ratio` in
src/scripts/contrast-checker.py: normalize each channel to [0,1],
linearize, and combine with the WCAG coefficients. -/
noncomputable def get_luminance (r g b : Int) : ℝ :=
  0.2126 * srgb_lin ((r : ℝ) / 255) + 0.7152 * srgb_lin ((g : ℝ) / 255) +
    0.0722 * srgb_lin ((b : ℝ) / 255)

/-- Model of `get_contrast_ratio` in src/scripts/contrast-checker.py:
the ratio of the lighter to the darker luminance, each offset by 0.05. -/
noncomputable def get_contrast_ratio (r1 g1 b1 r2 g2 b2 : Int) : ℝ :=
  (max (get_luminance r1 g1 b1) (get_luminance r2 g2 b2) + 0.05) /
    (min (get_luminance r1 g1 b1) (get_luminance r2 g2 b2) + 0.05)

end ContrastChecker

namespace DialogContrast

/-- Model of the piecewise sRGB-to-linear transform of the inner
`get_luminance` helper in src/check-dialog-contrast.py. -/
noncomputable def srgb_lin (c : ℝ) : ℝ :=
  if c ≤ 0.03928 then c / 12.92 else ((c + 0.055) / 1.055) ^ (2.4 : ℝ)

/-- Model of the inner `get_luminance` of `get_contrast_ratio` in
src/check-dialog-contrast.py. -/
noncomputable def get_luminance (r g b : Int) : ℝ :=
  0.2126 * srgb_lin ((r : ℝ) / 255) + 0.7152 * srgb_lin ((g : ℝ) / 255) +
    0.0722 * srgb_lin ((b : ℝ) / 255)

/-- Model of `get_contrast_ratio` in src/check-dialog-contrast.py. -/
noncomputable def get_contrast_ratio (r1 g1 b1 r2 g2 b2 : Int) : ℝ :=
  (max (get_luminance r1 g1 b1) (get_luminance r2 g2 b2) + 0.05) /
    (min (get_luminance r1 g1 b1) (get_luminance r2 g2 b2) + 0.05)

end DialogContrast

/-- Model of Python `round(x, 2)` used for the stored `contrastRatio`
field (rounding to the nearest integer number of hundredths; the
half-even tie rule of Python floats is not distinguished here). -/
noncomputable def roundTo2 (x : ℝ) : ℝ := (round (100 * x) : ℤ) / 100

/-- Model of `int(styles['fontWeight']) if styles['fontWeight'].isdigit()
else 400` in `check_element_contrast`. -/
def fontWeightOfString (s : PyStr) : Int :=
  if pyIsDigit s then (digitsToNat s : Int) else 400

/-- The per-element check record built by `check_element_contrast` when
both colors resolve (the style strings of the source record are kept as
the `PyStr` fields; `contrastRatio` stores the rounded ratio while the
pass decision uses the unrounded ratio, as in the source). -/
structure ContrastCheck where
  selector : PyStr
  description : PyStr
  text : PyStr
  contrastRatio : ℝ
  required : ℝ
  passes : Bool
  isLargeText : Bool

/-- Model of the record-construction tail of `check_element_contrast`
(src/scripts/contrast-checker.py, the body guarded by
`if color and bg_color:`): compute the ratio, classify large text,
select the threshold, and decide the pass flag. -/
noncomputable def buildContrastCheck (sel desc text : PyStr) (r1 g1 b1 r2 g2 b2 : Int)
    (fontSize : ℚ) (fontWeight : Int) : ContrastCheck :=
  let ratio := ContrastChecker.get_contrast_ratio r1 g1 b1 r2 g2 b2
  let is_large : Bool := decide (fontSize ≥ 24 ∨ (fontSize ≥ 18.66 ∧ fontWeight ≥ 700))
  let min_ratio : ℝ := if is_large then 3.0 else 4.5
  { selector := sel
    description := desc
    text := text.take 50
    contrastRatio := roundTo2 ratio
    required := min_ratio
    passes := decide (ratio ≥ min_ratio)
    isLargeText := is_large }

/-- Outcome of `check_element_contrast` for one element: `skip` models a
`None` return, `errRec` models the `{'selector': ..., 'error': ...}`
record produced by the exception handler, and `check` models a completed
contrast record. -/
inductive CheckResult where
  | skip : CheckResult
  | errRec : String → CheckResult
  | check : ContrastCheck → CheckResult

/-- The computed styles read from the browser for one element. -/
structure ElementStyles where
  color : PyStr
  backgroundColor : PyStr
  fontSize : PyStr
  fontWeight : PyStr
  text : PyStr

/-- Inputs of one `check_element_contrast` call: a possible driver fault
(an exception raised by the locator/evaluate calls, caught by the
function's handler), the element's visibility, its computed styles, and
the ancestor background chain consulted on a transparent background. -/
structure ElemInput where
  selector : PyStr
  description : PyStr
  driverFault : Option String
  visible : Bool
  styles : ElementStyles
  ancestorBgs : List PyStr

/-- Tail of `check_element_contrast` after color resolution: the guard
`if color and bg_color:` skips when either is the transparent marker;
unpacking tuples of the wrong arity into `get_contrast_ratio` raises
`TypeError`; a malformed font size raises `ValueError`; otherwise the
contrast record is built. -/
noncomputable def finishCheck (e : ElemInput) (colorOpt bgOpt : PyColor) : CheckResult :=
  match colorOpt with
  | none => .skip
  | some c =>
    match bgOpt with
    | none => .skip
    | some b =>
      match c, b with
      | [r1, g1, b1], [r2, g2, b2] =>
        match pythonFloat (pyReplace e.styles.fontSize ("px").toList []) with
        | none => .errRec "ValueError"
        | some fs =>
          .check (buildContrastCheck e.selector e.description e.styles.text
            r1 g1 b1 r2 g2 b2 fs (fontWeightOfString e.styles.fontWeight))
      | _, _ => .errRec "TypeError"

/-- Model of `check_element_contrast` in src/scripts/contrast-checker.py:
invisible elements are skipped; the foreground is parsed, then the
background resolved via `resolveBg`; the rest is `finishCheck`.  Any
raised exception is caught and becomes an `errRec`. -/
noncomputable def checkElementContrast (e : ElemInput) : CheckResult :=
  match e.driverFault with
  | some msg => .errRec msg
  | none =>
    if e.visible = false then .skip
    else
      match parse_rgb e.styles.color with
      | .error msg => .errRec msg
      | .ok colorOpt =>
        match resolveBg e.styles.backgroundColor e.ancestorBgs with
        | .error msg => .errRec msg
        | .ok bgOpt => finishCheck e colorOpt bgOpt

/-- Model of the result collection of `audit_page_contrast`: only
completed records are appended (`if result and 'error' not in result`);
skipped elements and error records are dropped. -/
noncomputable def audit_page_contrast (elems : List ElemInput) : List ContrastCheck :=
  (elems.map checkElementContrast).filterMap fun r =>
    match r with
    | .check c => some c
    | _ => none

/-- Model of the passing count of the summary in the `main` of
src/scripts/contrast-checker.py. -/
def totalPassed (rs : List ContrastCheck) : Nat :=
  (rs.filter fun r => r.passes).length

/-- Model of the failing count of the summary in the `main` of
src/scripts/contrast-checker.py. -/
def totalFailed (rs : List ContrastCheck) : Nat :=
  (rs.filter fun r => !r.passes).length

/-- Model of the tail of the `main` of src/scripts/contrast-checker.py:
the summary counts are produced and the aggregate report is written with
no surrounding handler, so a raised write error propagates and the run
dies; `persistOutcome = some e` models a raised `IOError`. -/
def contrastMain (persistOutcome : Option String) (all_results : List ContrastCheck) :
    Except String (Nat × Nat) :=
  match persistOutcome with
  | some e => .error e
  | none => .ok (totalPassed all_results, totalFailed all_results)

/-- One violation entry of the external rule-scanner (axe-core); only the
rule id is inspected by the orchestrator, the rest is opaque payload. -/
structure Violation where
  id : PyStr
  impact : PyStr
  help : PyStr
  nodeCount : Nat

/-- The dictionary returned by `run_axe_audit`: an optional `error` key
(the scanner reported a failure) and the violation list. -/
structure AxeResults where
  errorMsg : Option String
  violations : List Violation

/-- One audit job of src/accessibility-audit.py together with the
outcomes of its external effects: `navOutcome`, `screenshotOutcome` and
`persistOutcome` hold `some msg` when the corresponding driver or file
operation raises (caught by the page-level handler), and `axeOutcome` is
`.error` when injecting or evaluating the scanner raises. -/
structure PageJob where
  url : PyStr
  name : PyStr
  navOutcome : Option String
  screenshotOutcome : Option String
  axeOutcome : Except String AxeResults
  persistOutcome : Option String

/-- The per-page result dictionary built by `audit_page`. -/
structure PageResult where
  name : PyStr
  url : PyStr
  total_violations : Nat
  contrast_violations : Nat
  violations : List Violation

/-- Model of `audit_page` in src/accessibility-audit.py: every raised
exception inside the page body is caught by the `except` and turns into a
`None` return; a scanner result carrying an `error` key also returns
`None` (lines 83-85); otherwise the per-page JSON is written (a raised
write error is again caught into `None`) and the result dictionary is
built, counting the violations whose id contains `color-contrast`. -/
def audit_page (j : PageJob) : Option PageResult :=
  match j.navOutcome with
  | some _ => none
  | none =>
    match j.screenshotOutcome with
    | some _ => none
    | none =>
      match j.axeOutcome with
      | .error _ => none
      | .ok axe =>
        match axe.errorMsg with
        | some _ => none
        | none =>
          match j.persistOutcome with
          | some _ => none
          | none =>
            let cvs := axe.violations.filter fun v =>
              containsSub ("color-contrast").toList v.id
            some
              { name := j.name
                url := j.url
                total_violations := axe.violations.length
                contrast_violations := cvs.length
                violations := axe.violations }

/-- Model of the page loop of `main` in src/accessibility-audit.py:
`result = audit_page(...)` followed by `if result: results.append(result)`
is exactly a `filterMap`. -/
def auditMain (jobs : List PageJob) : List PageResult :=
  jobs.filterMap audit_page

/-- The linearization is nonnegative on nonnegative inputs. -/
lemma srgb_lin_nonneg {c : ℝ} (hc : 0 ≤ c) : 0 ≤ ContrastChecker.srgb_lin c := by
  unfold ContrastChecker.srgb_lin
  split
  · exact div_nonneg hc (by norm_num)
  · exact Real.rpow_nonneg (div_nonneg (by linarith) (by norm_num)) _

/-- The luminance is nonnegative on nonnegative channels. -/
lemma get_luminance_nonneg (r g b : Int) (hr : 0 ≤ r) (hg : 0 ≤ g) (hb : 0 ≤ b) :
    0 ≤ ContrastChecker.get_luminance r g b := by
  unfold ContrastChecker.get_luminance
  have h1 : 0 ≤ ContrastChecker.srgb_lin ((r : ℝ) / 255) :=
    srgb_lin_nonneg (div_nonneg (by exact_mod_cast hr) (by norm_num))
  have h2 : 0 ≤ ContrastChecker.srgb_lin ((g : ℝ) / 255) :=
    srgb_lin_nonneg (div_nonneg (by exact_mod_cast hg) (by norm_num))
  have h3 : 0 ≤ ContrastChecker.srgb_lin ((b : ℝ) / 255) :=
    srgb_lin_nonneg (div_nonneg (by exact_mod_cast hb) (by norm_num))
  have m1 : (0 : ℝ) ≤ 0.2126 * ContrastChecker.srgb_lin ((r : ℝ) / 255) :=
    mul_nonneg (by norm_num) h1
  have m2 : (0 : ℝ) ≤ 0.7152 * ContrastChecker.srgb_lin ((g : ℝ) / 255) :=
    mul_nonneg (by norm_num) h2
  have m3 : (0 : ℝ) ≤ 0.0722 * ContrastChecker.srgb_lin ((b : ℝ) / 255) :=
    mul_nonneg (by norm_num) h3
  linarith

/-- C7: the contrast ratio of `get_contrast_ratio` in
src/scripts/contrast-checker.py is symmetric in its two color
arguments. -/
theorem c7_contrast_ratio_symm (r1 g1 b1 r2 g2 b2 : Int) :
    ContrastChecker.get_contrast_ratio r1 g1 b1 r2 g2 b2 =
      ContrastChecker.get_contrast_ratio r2 g2 b2 r1 g1 b1 := by
  unfold ContrastChecker.get_contrast_ratio
  rw [max_comm, min_comm]

/-- C9: the two textually duplicated copies of `get_contrast_ratio` (in
src/scripts/contrast-checker.py and src/check-dialog-contrast.py) are
extensionally equal. -/
theorem c9_duplicate_ratio_functions_eq (r1 g1 b1 r2 g2 b2 : Int) :
    ContrastChecker.get_contrast_ratio r1 g1 b1 r2 g2 b2 =
      DialogContrast.get_contrast_ratio r1 g1 b1 r2 g2 b2 := rfl

/-- C8: for channels in 0-255 the contrast ratio is at least 1, and the
ratio of a color with itself is exactly 1. -/
theorem c8_contrast_ratio_ge_one (r1 g1 b1 r2 g2 b2 : Int)
    (h1 : 0 ≤ r1 ∧ r1 ≤ 255) (h2 : 0 ≤ g1 ∧ g1 ≤ 255) (h3 : 0 ≤ b1 ∧ b1 ≤ 255)
    (h4 : 0 ≤ r2 ∧ r2 ≤ 255) (h5 : 0 ≤ g2 ∧ g2 ≤ 255) (h6 : 0 ≤ b2 ∧ b2 ≤ 255) :
    1 ≤ ContrastChecker.get_contrast_ratio r1 g1 b1 r2 g2 b2 ∧
      ContrastChecker.get_contrast_ratio r1 g1 b1 r1 g1 b1 = 1 := by
  have hl1 : 0 ≤ ContrastChecker.get_luminance r1 g1 b1 :=
    get_luminance_nonneg r1 g1 b1 h1.1 h2.1 h3.1
  have hl2 : 0 ≤ ContrastChecker.get_luminance r2 g2 b2 :=
    get_luminance_nonneg r2 g2 b2 h4.1 h5.1 h6.1
  constructor
  · unfold ContrastChecker.get_contrast_ratio
    have hmin : 0 < min (ContrastChecker.get_luminance r1 g1 b1)
        (ContrastChecker.get_luminance r2 g2 b2) + 0.05 := by
      have := le_min hl1 hl2
      linarith
    rw [le_div_iff₀ hmin, one_mul]
    have hmm := min_le_max (a := ContrastChecker.get_luminance r1 g1 b1)
      (b := ContrastChecker.get_luminance r2 g2 b2)
    linarith
  · unfold ContrastChecker.get_contrast_ratio
    rw [max_self, min_self]
    exact div_self (ne_of_gt (by linarith))

/-- Witness for C8 at the black color (0,0,0). -/
theorem c8_witness :
    ((0 : Int) ≤ 0 ∧ (0 : Int) ≤ 255) ∧
      1 ≤ ContrastChecker.get_contrast_ratio 0 0 0 0 0 0 ∧
        ContrastChecker.get_contrast_ratio 0 0 0 0 0 0 = 1 :=
  ⟨by decide, c8_contrast_ratio_ge_one 0 0 0 0 0 0 (by decide) (by decide) (by decide)
    (by decide) (by decide) (by decide)⟩

/-- C1: every contrast record built by `check_element_contrast` has
`isLargeText` true exactly when `fontSize >= 24` or
`fontSize >= 18.66 and fontWeight >= 700`, a required threshold of 3.0
when large and 4.5 otherwise, and a pass flag true exactly when the
computed (unrounded) ratio reaches the threshold, boundary equality
included. -/
theorem c1_contrast_record_fields (sel desc text : PyStr) (r1 g1 b1 r2 g2 b2 : Int)
    (fs : ℚ) (fw : Int) :
    ((buildContrastCheck sel desc text r1 g1 b1 r2 g2 b2 fs fw).isLargeText = true ↔
      (24 ≤ fs ∨ (18.66 ≤ fs ∧ 700 ≤ fw))) ∧
    (buildContrastCheck sel desc text r1 g1 b1 r2 g2 b2 fs fw).required =
      (if (buildContrastCheck sel desc text r1 g1 b1 r2 g2 b2 fs fw).isLargeText
        then 3.0 else 4.5) ∧
    ((buildContrastCheck sel desc text r1 g1 b1 r2 g2 b2 fs fw).passes = true ↔
      (buildContrastCheck sel desc text r1 g1 b1 r2 g2 b2 fs fw).required ≤
        ContrastChecker.get_contrast_ratio r1 g1 b1 r2 g2 b2) := by
  refine ⟨?_, ?_, ?_⟩
  · simp [buildContrastCheck, ge_iff_le]
  · simp [buildContrastCheck]
  · simp [buildContrastCheck, ge_iff_le]

/-- C10: when the computed fontWeight string is not composed solely of
digits, the evaluator substitutes weight 400, so the record is classified
large exactly when `fontSize >= 24`; the bold branch can never fire. -/
theorem c10_nondigit_weight_defaults (s : PyStr) (h : pyIsDigit s = false)
    (sel desc text : PyStr) (r1 g1 b1 r2 g2 b2 : Int) (fs : ℚ) :
    (buildContrastCheck sel desc text r1 g1 b1 r2 g2 b2 fs
      (fontWeightOfString s)).isLargeText = true ↔ 24 ≤ fs := by
  have hw : fontWeightOfString s = 400 := by simp [fontWeightOfString, h]
  rw [hw]
  simp [buildContrastCheck, ge_iff_le]

/-- Witness for C10 at the keyword weight string `bold`. -/
theorem c10_witness :
    pyIsDigit ("bold").toList = false ∧
      ((buildContrastCheck [] [] [] 0 0 0 0 0 0 30
        (fontWeightOfString ("bold").toList)).isLargeText = true ↔ 24 ≤ (30 : ℚ)) :=
  ⟨by decide, c10_nondigit_weight_defaults ("bold").toList (by decide) [] [] [] 0 0 0 0 0 0 30⟩

/-- A prefix test for a concatenation implies the prefix test for the
left part. -/
lemma leadsWith_append (l1 l2 s : PyStr) (h : leadsWith (l1 ++ l2) s = true) :
    leadsWith l1 s = true := by
  induction l1 generalizing s with
  | nil => rfl
  | cons a t ih =>
    cases s with
    | nil => simp [leadsWith] at h
    | cons b s2 =>
      simp only [List.cons_append, leadsWith, Bool.and_eq_true] at h ⊢
      exact ⟨h.1, ih s2 h.2⟩

/-- A substring test for a concatenation implies the substring test for
the left part. -/
lemma containsSub_append (l1 l2 s : PyStr) (h : containsSub (l1 ++ l2) s = true) :
    containsSub l1 s = true := by
  induction s with
  | nil =>
    simp only [containsSub, List.isEmpty_eq_true, List.append_eq_nil] at h
    simp [containsSub, h.1]
  | cons c rest ih =>
    simp only [containsSub, Bool.or_eq_true] at h ⊢
    rcases h with h | h
    · exact Or.inl (leadsWith_append _ _ _ h)
    · exact Or.inr (ih h)

/-- Counterexample to C2: on the input `rgb(a,b,c)` the parser reaches
`int('a')`, which raises `ValueError`; `parse_rgb` does not return the
transparent marker but propagates an exception to its caller. -/
theorem c2_counterexample : parse_rgb ("rgb(a,b,c)").toList = .error "ValueError" := by rfl

/-- C2 (amended): for every input that does not contain the substring
`rgb` (the empty string included), `parse_rgb` terminates normally and
returns the transparent marker; inputs containing `rgb` with malformed
components may instead raise (see the counterexample). -/
theorem c2_parse_rgb_transparent_without_rgb (s : PyStr)
    (h : containsSub ("rgb").toList s = false) : parse_rgb s = .ok none := by
  have hB : containsSub ("rgba").toList s = false := by
    cases hb : containsSub ("rgba").toList s with
    | false => rfl
    | true =>
      have e : ("rgba").toList = ("rgb").toList ++ ['a'] := by decide
      rw [e] at hb
      have := containsSub_append _ _ _ hb
      rw [h] at this
      exact absurd this (by decide)
  unfold parse_rgb
  rw [hB, h]
  split
  · rfl
  · rfl

/-- Witness for the amended C2 at the CSS keyword `transparent`. -/
theorem c2_witness :
    containsSub ("rgb").toList ("transparent").toList = false ∧
      parse_rgb ("transparent").toList = .ok none :=
  ⟨by decide, c2_parse_rgb_transparent_without_rgb _ (by decide)⟩

/-- When every ancestor background is falsy or the fully-transparent rgba
literal, the ancestor walk returns the white default. -/
lemma walkParents_all_transparent (ancestors : List PyStr)
    (h : ∀ b ∈ ancestors, b = [] ∨ b = ("rgba(0, 0, 0, 0)").toList) :
    walkParents ancestors = ("rgb(255, 255, 255)").toList := by
  induction ancestors with
  | nil => rfl
  | cons a rest ih =>
    unfold walkParents
    rw [if_neg]
    · exact ih fun b hb => h b (List.mem_cons_of_mem _ hb)
    · rcases h a (List.mem_cons_self _ _) with ha | ha
      · exact fun hc => hc.1 ha
      · exact fun hc => hc.2 ha

/-- C3: when the element's own computed background parses to the
transparent marker and every ancestor reports a transparent (or empty)
background, the resolver returns opaque white (255,255,255). -/
theorem c3_resolver_white_fallback (bgStr : PyStr) (ancestors : List PyStr)
    (hbg : parse_rgb bgStr = .ok none)
    (h : ∀ b ∈ ancestors, b = [] ∨ b = ("rgba(0, 0, 0, 0)").toList) :
    resolveBg bgStr ancestors = .ok (some [255, 255, 255]) := by
  unfold resolveBg
  rw [hbg, walkParents_all_transparent ancestors h]
  rfl

/-- Witness for C3: a transparent own background and a two-deep fully
transparent ancestor chain resolve to white. -/
theorem c3_witness :
    parse_rgb ("rgba(0, 0, 0, 0)").toList = .ok none ∧
      resolveBg ("rgba(0, 0, 0, 0)").toList [[], ("rgba(0, 0, 0, 0)").toList] =
        .ok (some [255, 255, 255]) :=
  ⟨by rfl, c3_resolver_white_fallback _ _ (by rfl) (by decide)⟩

/-- An element whose foreground parses to the transparent marker, or
whose background resolves to the transparent marker, never yields a
completed contrast record. -/
lemma checkElementContrast_no_check (e : ElemInput)
    (h : parse_rgb e.styles.color = .ok none ∨
      resolveBg e.styles.backgroundColor e.ancestorBgs = .ok none) :
    ∀ rec, checkElementContrast e ≠ .check rec := by
  intro rec hcontra
  unfold checkElementContrast at hcontra
  cases hdf : e.driverFault with
  | some m => rw [hdf] at hcontra; exact CheckResult.noConfusion hcontra
  | none =>
    rw [hdf] at hcontra
    by_cases hv : e.visible = false
    · rw [if_pos hv] at hcontra; exact CheckResult.noConfusion hcontra
    · rw [if_neg hv] at hcontra
      rcases h with h1 | h1
      · rw [h1] at hcontra
        cases hbg : resolveBg e.styles.backgroundColor e.ancestorBgs with
        | error m => rw [hbg] at hcontra; exact CheckResult.noConfusion hcontra
        | ok bgOpt =>
          rw [hbg] at hcontra
          exact CheckResult.noConfusion hcontra
      · cases hfg : parse_rgb e.styles.color with
        | error m => rw [hfg] at hcontra; exact CheckResult.noConfusion hcontra
        | ok colorOpt =>
          rw [hfg, h1] at hcontra
          cases colorOpt with
          | none => exact CheckResult.noConfusion hcontra
          | some c => exact CheckResult.noConfusion hcontra

/-- C6: a ContrastCheck is never created when the foreground parses to
the transparent marker or the background resolves to the transparent
marker; such an element is skipped, the results list of
`audit_page_contrast` is unchanged by it, and it contributes to neither
the pass total nor the fail total of the run summary. -/
theorem c6_unresolved_color_skipped (e : ElemInput)
    (h : parse_rgb e.styles.color = .ok none ∨
      resolveBg e.styles.backgroundColor e.ancestorBgs = .ok none) :
    (∀ rec, checkElementContrast e ≠ .check rec) ∧
      ∀ rest, audit_page_contrast (e :: rest) = audit_page_contrast rest ∧
        totalPassed (audit_page_contrast (e :: rest)) =
          totalPassed (audit_page_contrast rest) ∧
        totalFailed (audit_page_contrast (e :: rest)) =
          totalFailed (audit_page_contrast rest) := by
  have hnc := checkElementContrast_no_check e h
  have hlist : ∀ rest, audit_page_contrast (e :: rest) = audit_page_contrast rest := by
    intro rest
    unfold audit_page_contrast
    rw [List.map_cons, List.filterMap_cons]
    cases hres : checkElementContrast e with
    | skip => rfl
    | errRec m => rfl
    | check r => exact absurd hres (hnc r)
  exact ⟨hnc, fun rest => ⟨hlist rest, by rw [hlist rest], by rw [hlist rest]⟩⟩

/-- Concrete element input for the C6 witness: a fully transparent
foreground color over an opaque background. -/
noncomputable def c6elem : ElemInput :=
  { selector := ("h1").toList
    description := ("heading").toList
    driverFault := none
    visible := true
    styles :=
      { color := ("rgba(0, 0, 0, 0)").toList
        backgroundColor := ("rgb(255, 255, 255)").toList
        fontSize := ("16px").toList
        fontWeight := ("400").toList
        text := [] }
    ancestorBgs := [] }

/-- Witness for C6 at a concrete transparent-foreground element. -/
theorem c6_witness :
    parse_rgb c6elem.styles.color = .ok none ∧
      ∀ rec, checkElementContrast c6elem ≠ .check rec :=
  ⟨by rfl, (c6_unresolved_color_skipped c6elem (Or.inl (by rfl))).1⟩

/-- Concrete job for the C4 counterexample: navigation and screenshot
succeed, but the rule-scanner returns a result carrying an `error` key. -/
def c4job : PageJob :=
  { url := ("http://localhost:3000").toList
    name := ("home").toList
    navOutcome := none
    screenshotOutcome := none
    axeOutcome := .ok { errorMsg := some "axe is not defined", violations := [] }
    persistOutcome := none }

/-- Counterexample to C4: on a scanner error `audit_page` returns `None`
and `main` drops the page from the run results entirely; no marker of any
kind is recorded for the page and no manual checks are run by this
script. -/
theorem c4_counterexample : audit_page c4job = none ∧ auditMain [c4job] = [] :=
  ⟨rfl, rfl⟩

/-- C4 (amended): whenever the rule-scanner result carries an `error`
key, `audit_page` returns `None`, and the page loop of `main` therefore
omits the page from the run results; the run continues with the
remaining pages but the errored page's result is discarded rather than
recorded with a marker. -/
theorem c4_scanner_error_discards_page (j : PageJob) (axe : AxeResults)
    (hnav : j.navOutcome = none) (hshot : j.screenshotOutcome = none)
    (haxe : j.axeOutcome = .ok axe) (herr : axe.errorMsg.isSome = true) :
    audit_page j = none ∧ ∀ rest, auditMain (j :: rest) = auditMain rest := by
  have h1 : audit_page j = none := by
    obtain ⟨m, hm⟩ := Option.isSome_iff_exists.mp herr
    unfold audit_page
    simp only [hnav, hshot, haxe, hm]
  refine ⟨h1, fun rest => ?_⟩
  unfold auditMain
  rw [List.filterMap_cons, h1]

/-- Witness for the amended C4 at the concrete scanner-error job. -/
theorem c4_witness :
    (c4job.navOutcome = none ∧ c4job.screenshotOutcome = none ∧
        c4job.axeOutcome = .ok { errorMsg := some "axe is not defined", violations := [] }) ∧
      audit_page c4job = none :=
  ⟨⟨rfl, rfl, rfl⟩,
    (c4_scanner_error_discards_page c4job _ rfl rfl rfl (by decide)).1⟩

/-- Concrete job for the C5 counterexample: everything succeeds except
writing the per-page JSON report, which raises. -/
def c5failJob : PageJob :=
  { url := ("http://localhost:3000/amenities").toList
    name := ("amenities").toList
    navOutcome := none
    screenshotOutcome := none
    axeOutcome := .ok { errorMsg := none, violations := [] }
    persistOutcome := some "IOError" }

/-- Concrete healthy job audited after the failing one. -/
def c5okJob : PageJob :=
  { url := ("http://localhost:3000").toList
    name := ("home").toList
    navOutcome := none
    screenshotOutcome := none
    axeOutcome := .ok { errorMsg := none, violations := [] }
    persistOutcome := none }

/-- Counterexample to C5: a failure writing the per-page JSON in
`audit_page` is caught by the page-level handler, the page's result is
dropped, and the run continues to audit the next page instead of
aborting. -/
theorem c5_counterexample :
    audit_page c5failJob = none ∧
      auditMain [c5failJob, c5okJob] =
        [{ name := ("home").toList
           url := ("http://localhost:3000").toList
           total_violations := 0
           contrast_violations := 0
           violations := [] }] :=
  ⟨rfl, rfl⟩

/-- C5 (amended): a failure writing the aggregate contrast report in the
`main` of src/scripts/contrast-checker.py propagates with no handler and
is fatal for the run; but a failure writing a per-page JSON inside
`audit_page` of src/accessibility-audit.py is caught by the page-level
exception handler, so that page's result is dropped (with an error
logged) and the run continues. -/
theorem c5_persistence_failure_handling (j : PageJob) (axe : AxeResults)
    (hnav : j.navOutcome = none) (hshot : j.screenshotOutcome = none)
    (haxe : j.axeOutcome = .ok axe) (herr : axe.errorMsg = none)
    (hp : j.persistOutcome.isSome = true) :
    audit_page j = none ∧
      ∀ (msg : String) (rs : List ContrastCheck), contrastMain (some msg) rs = .error msg := by
  constructor
  · obtain ⟨m, hpp⟩ := Option.isSome_iff_exists.mp hp
    unfold audit_page
    simp only [hnav, hshot, haxe, herr, hpp]
  · intro msg rs
    rfl

/-- Witness for the amended C5 at the concrete failing-write job. -/
theorem c5_witness :
    (c5failJob.navOutcome = none ∧ c5failJob.persistOutcome.isSome = true) ∧
      audit_page c5failJob = none ∧
        contrastMain (some "IOError") [] = .error "IOError" :=
  ⟨⟨rfl, rfl⟩,
    (c5_persistence_failure_handling c5failJob _ rfl rfl rfl rfl rfl).1,
    (c5_persistence_failure_handling c5failJob _ rfl rfl rfl rfl rfl).2 "IOError" []⟩
